import Mathlib

/-!
Verification of the Stepper state-and-composition model of the `jiviai/ui`
component library, embedded from `src/lib/components/ui/stepper.tsx`.

The stepper is a controlled component: a root `Stepper` builds a context
value from its props and broadcasts it to descendants; each `StepperItem`
derives an `active`/`completed`/`inactive` state from its `step` and the
context's `value`; `StepperTrigger` gates navigation requests on the
context's `clickable` flag; `StepperIndicator`, `StepperBadge`,
`StepperSeparator` and `StepperContent` render purely from the derived
state and the context.  All of this logic is pure, so it embeds directly
as Lean functions.  Renderable content (React nodes) is abstracted as a
type parameter; a component that renders nothing is modelled as `none`.
Host callbacks are modelled by the list of signals a handler emits:
`Signal.valueChange v` for an `onValueChange(v)` invocation and
`Signal.clickProp` for an invocation of a caller-supplied `onClick` prop.
-/

namespace Stepper

/-- Layout variant of the stepper (`"horizontal" | "vertical"`). -/
inductive Variant where
  | horizontal
  | vertical
deriving DecidableEq, Repr

/-- Size variant (`"sm" | "md" | "lg"`). -/
inductive Size where
  | sm
  | md
  | lg
deriving DecidableEq, Repr

/-- Color for completed steps (`"orange" | "green"`). -/
inductive CompletedColor where
  | orange
  | green
deriving DecidableEq, Repr

/-- Derived state of a step node (`"active" | "completed" | "inactive"`). -/
inductive StepState where
  | active
  | completed
  | inactive
deriving DecidableEq, Repr

/-- Declared status of a `StepperBadge`
(`"success" | "warning" | "error" | "inactive" | "default"`). -/
inductive BadgeStatus where
  | success
  | warning
  | error
  | inactive
  | default
deriving DecidableEq, Repr

/-- The `indicators` prop: optional override content for the `completed`
and `loading` indicator states (stepper.tsx lines 20-23).  `α` is the type
of renderable content. -/
structure Indicators (α : Type) where
  completed : Option α
  loading : Option α
deriving DecidableEq, Repr

/-- The value carried by `StepperContext` (stepper.tsx lines 16-29).  The
`onValueChange` callback is represented by whether it was supplied; its
invocations are observed through `Signal` lists. -/
structure StepperContextValue (α : Type) where
  value : Int
  hasOnValueChange : Bool
  variant : Variant
  indicators : Option (Indicators α)
  clickable : Bool
  totalSteps : Option Int
  size : Size
  showConnector : Bool
  completedColor : CompletedColor
deriving DecidableEq, Repr

/-- The default context value passed to `React.createContext`
(stepper.tsx lines 31-38). -/
def defaultStepperContext (α : Type) : StepperContextValue α :=
  { value := 1
    hasOnValueChange := false
    variant := Variant.horizontal
    indicators := none
    clickable := false
    totalSteps := none
    size := Size.md
    showConnector := true
    completedColor := CompletedColor.green }

/-- Props of the root `Stepper` component (stepper.tsx lines 43-88).
Optional props are `Option`s; the component applies defaults while
destructuring (lines 98-104). -/
structure StepperProps (α : Type) where
  value : Int
  hasOnValueChange : Bool
  variant : Option Variant
  indicators : Option (Indicators α)
  clickable : Option Bool
  totalSteps : Option Int
  size : Option Size
  showConnector : Option Bool
  completedColor : Option CompletedColor
deriving DecidableEq, Repr

/-- The context value the root `Stepper` provides to its descendants,
built from its props (stepper.tsx lines 94-120): defaults
`variant="horizontal"`, `clickable=false`, `size="md"`,
`showConnector=true`, `completedColor="green"`, then every field is passed
through unchanged into the provider value. -/
def mkStepperContext {α : Type} (p : StepperProps α) : StepperContextValue α :=
  { value := p.value
    hasOnValueChange := p.hasOnValueChange
    variant := p.variant.getD Variant.horizontal
    indicators := p.indicators
    clickable := p.clickable.getD false
    totalSteps := p.totalSteps
    size := p.size.getD Size.md
    showConnector := p.showConnector.getD true
    completedColor := p.completedColor.getD CompletedColor.green }

/-- The value carried by `StepperItemContext` (stepper.tsx lines 383-388):
the node's derived state and its 1-indexed step number. -/
structure StepperItemContextValue where
  state : StepState
  step : Int
deriving DecidableEq, Repr

/-- The derived-state computation of `StepperItemWithContext`
(stepper.tsx lines 397-401):
`step === value → "active"`, `step < value → "completed"`,
otherwise `"inactive"`. -/
def deriveState (step value : Int) : StepState :=
  if step = value then StepState.active
  else if step < value then StepState.completed
  else StepState.inactive

/-- The state a `StepperItemWithContext` with a given `step` computes from
the stepper context (stepper.tsx lines 393-401): it reads only `value`
(and `variant`, for styling) from the context. -/
def stepperItemState {α : Type} (ctx : StepperContextValue α) (step : Int) : StepState :=
  deriveState step ctx.value

/-- The item context a `StepperItemWithContext` provides to its subtree
(stepper.tsx line 404). -/
def stepperItemProvide {α : Type} (ctx : StepperContextValue α) (step : Int) :
    StepperItemContextValue :=
  { state := stepperItemState ctx step, step := step }

/-- Reading the derived state out of an optional item context, defaulting
to `"inactive"` when absent (the `step?.state || "inactive"` idiom used at
stepper.tsx lines 337, 642, 743). -/
def stepCtxState (stepCtx : Option StepperItemContextValue) : StepState :=
  match stepCtx with
  | some s => s.state
  | none => StepState.inactive

/-- A signal emitted to the host: an `onValueChange(v)` invocation, or an
invocation of a caller-supplied `onClick` prop. -/
inductive Signal where
  | valueChange (v : Int)
  | clickProp
deriving DecidableEq, Repr

/-- Whether a signal is an `onValueChange` invocation. -/
def isValueChange : Signal → Bool
  | Signal.valueChange _ => true
  | Signal.clickProp => false

/-- Number of `onValueChange` invocations in a list of emitted signals. -/
def countValueChanges (l : List Signal) : Nat :=
  l.countP isValueChange

/-- The `handleClick` handler of `StepperTrigger` (stepper.tsx lines
257-262): if `clickable && stepContext && onValueChange`, invoke
`onValueChange(stepContext.step)`; then invoke the caller's `onClick`
prop when one was supplied (`onClick?.(e)`).  The handler assigns to no
state; its entire effect is the emitted signal list. -/
def handleClick {α : Type} (ctx : StepperContextValue α)
    (stepCtx : Option StepperItemContextValue) (hasOnClick : Bool) : List Signal :=
  (match ctx.clickable, stepCtx, ctx.hasOnValueChange with
   | true, some sc, true => [Signal.valueChange sc.step]
   | _, _, _ => []) ++
  (if hasOnClick then [Signal.clickProp] else [])

/-- What a `StepperTrigger` renders (stepper.tsx lines 264-289): with
`asChild` it is a plain `div` container carrying only the children, with
no click handler and no button semantics; otherwise it is a `button` with
`handleClick` attached and `disabled={!clickable}`. -/
inductive TriggerRendered (α : Type) where
  | plainContainer (children : α)
  | button (disabled : Bool) (children : α)
deriving DecidableEq, Repr

/-- The render function of `StepperTrigger` (stepper.tsx lines 252-289). -/
def stepperTriggerRender {α : Type} (ctx : StepperContextValue α)
    (asChild : Bool) (children : α) : TriggerRendered α :=
  if asChild then TriggerRendered.plainContainer children
  else TriggerRendered.button (!ctx.clickable) children

/-- The signals one activation of a rendered `StepperTrigger` emits: the
`asChild` rendering has no handler attached, so an activation emits
nothing; the `button` rendering runs `handleClick`. -/
def triggerActivationSignals {α : Type} (ctx : StepperContextValue α)
    (stepCtx : Option StepperItemContextValue) (hasOnClick : Bool)
    (asChild : Bool) : List Signal :=
  if asChild then [] else handleClick ctx stepCtx hasOnClick

/-- The signals emitted by a sequence of `n` activations of the same
rendered trigger.  Each activation runs to completion (the handler is a
total function, so no activation raises an error). -/
def triggerActivationRun {α : Type} (n : Nat) (ctx : StepperContextValue α)
    (stepCtx : Option StepperItemContextValue) (hasOnClick : Bool)
    (asChild : Bool) : List Signal :=
  (List.replicate n (triggerActivationSignals ctx stepCtx hasOnClick asChild)).flatten

/-- A value-change request seen as a state transformer on the context: the
source handler (stepper.tsx lines 257-262) contains no assignment to any
context field — the context is provided afresh from the caller's props on
every render (lines 109-120) — so the request leaves the context exactly
as it was and only emits signals. -/
def triggerActivate {α : Type} (ctx : StepperContextValue α)
    (stepCtx : Option StepperItemContextValue) (hasOnClick : Bool) :
    StepperContextValue α × List Signal :=
  (ctx, handleClick ctx stepCtx hasOnClick)

/-- The content resolution of `StepperIndicator` (stepper.tsx lines
333-347): if `loading && indicators?.loading`, the loading override; else
if `state === "completed" && indicators?.completed`, the completed
override; else the caller-provided children. -/
def stepperIndicatorContent {α : Type} (ctx : StepperContextValue α)
    (stepCtx : Option StepperItemContextValue) (loading : Bool)
    (children : α) : α :=
  match loading, ctx.indicators.bind Indicators.loading with
  | true, some ov => ov
  | _, _ =>
    match stepCtxState stepCtx, ctx.indicators.bind Indicators.completed with
    | StepState.completed, some ov => ov
    | _, _ => children

/-- The visibility test of `StepperBadge` (stepper.tsx lines 644-648):
show iff `(active, warning)` or `(completed, success)` or
`(inactive, default)`. -/
def stepperBadgeShouldShow (state : StepState) (status : BadgeStatus) : Bool :=
  (state == StepState.active && status == BadgeStatus.warning) ||
  (state == StepState.completed && status == BadgeStatus.success) ||
  (state == StepState.inactive && status == BadgeStatus.default)

/-- The render function of `StepperBadge` (stepper.tsx lines 639-668):
`null` when the visibility test fails, otherwise the badge content. -/
def stepperBadgeRender {α : Type} (stepCtx : Option StepperItemContextValue)
    (status : BadgeStatus) (children : α) : Option α :=
  let state := stepCtxState stepCtx
  if stepperBadgeShouldShow state status then some children else none

/-- A rendered separator element (the `div` of stepper.tsx lines 762-772),
carrying its `data-state` and the styling inputs. -/
structure SeparatorElem where
  state : StepState
  variant : Variant
  size : Size
  completedColor : CompletedColor
deriving DecidableEq, Repr

/-- The render function of `StepperSeparator` (stepper.tsx lines 738-774):
`if (!showConnector) return null;` before anything is rendered, otherwise
a connector element styled from the derived state and the context. -/
def stepperSeparatorRender {α : Type} (ctx : StepperContextValue α)
    (stepCtx : Option StepperItemContextValue) : Option SeparatorElem :=
  let state := stepCtxState stepCtx
  if !ctx.showConnector then none
  else some { state := state, variant := ctx.variant, size := ctx.size,
              completedColor := ctx.completedColor }

/-- The render function of `StepperContent` (stepper.tsx lines 810-824):
`if (value !== stepValue) return null;` otherwise render the children. -/
def stepperContentRender {α : Type} (ctx : StepperContextValue α)
    (stepValue : Int) (children : α) : Option α :=
  if ctx.value ≠ stepValue then none else some children

/-- Claim C1: for every pair of integers `(step, currentValue)` the
derived-state function yields `active` when `step = currentValue`,
`completed` when `step < currentValue` and `inactive` when
`step > currentValue`; it is a total function on all integers, and the
state a `StepperItem` computes does not depend on `totalSteps` (no bounds
validation). -/
theorem deriveState_cases (step v : Int) (ctx : StepperContextValue Nat)
    (ts : Option Int) :
    (step = v → deriveState step v = StepState.active) ∧
    (step < v → deriveState step v = StepState.completed) ∧
    (v < step → deriveState step v = StepState.inactive) ∧
    stepperItemState { ctx with totalSteps := ts } step = stepperItemState ctx step := by
  refine ⟨?_, ?_, ?_, rfl⟩
  · intro h
    simp [deriveState, h]
  · intro h
    have hne : step ≠ v := by omega
    simp [deriveState, hne, h]
  · intro h
    have hne : step ≠ v := by omega
    have hnl : ¬ step < v := by omega
    simp [deriveState, hne, hnl]

/-- Witness for C1 at the spec's scenario `currentValue = 2`: steps
1, 2, 3 derive `completed`, `active`, `inactive`. -/
theorem deriveState_cases_witness :
    deriveState 1 2 = StepState.completed ∧
    deriveState 2 2 = StepState.active ∧
    deriveState 3 2 = StepState.inactive :=
  ⟨(deriveState_cases 1 2 (defaultStepperContext Nat) none).2.1 (by decide),
   (deriveState_cases 2 2 (defaultStepperContext Nat) none).1 rfl,
   (deriveState_cases 3 2 (defaultStepperContext Nat) none).2.2.1 (by decide)⟩

/-- Claim C2: with `clickable = true`, a supplied `onValueChange`, and a
trigger inside a node with `step = k`, a single activation of the rendered
trigger emits exactly the one signal `onValueChange(k)` — in particular,
with no `onClick` prop supplied, no other signal is emitted to the host. -/
theorem trigger_activation_correct (ctx : StepperContextValue Nat)
    (st : StepState) (k : Int) (hc : ctx.clickable = true)
    (ho : ctx.hasOnValueChange = true) :
    triggerActivationSignals ctx (some { state := st, step := k }) false false =
      [Signal.valueChange k] := by
  simp [triggerActivationSignals, handleClick, hc, ho]

/-- Witness for C2: a clickable context with a callback and a node at step
3 emits exactly `[valueChange 3]` on one activation. -/
theorem trigger_activation_correct_witness :
    triggerActivationSignals
        { defaultStepperContext Nat with clickable := true, hasOnValueChange := true }
        (some { state := StepState.inactive, step := 3 }) false false =
      [Signal.valueChange 3] :=
  trigger_activation_correct
    { defaultStepperContext Nat with clickable := true, hasOnValueChange := true }
    StepState.inactive 3 rfl rfl

/-- Claim C3: if `clickable` is false or no `onValueChange` callback was
supplied, any number of activation attempts on any node emits zero
`onValueChange` invocations; the handler is a total function, so the
attempts are dropped without raising an error. -/
theorem activation_gating (n : Nat) (ctx : StepperContextValue Nat)
    (stepCtx : Option StepperItemContextValue) (hasOnClick asChild : Bool)
    (h : ctx.clickable = false ∨ ctx.hasOnValueChange = false) :
    countValueChanges (triggerActivationRun n ctx stepCtx hasOnClick asChild) = 0 := by
  induction n with
  | zero => simp [triggerActivationRun, countValueChanges]
  | succ m ih =>
    have hone : countValueChanges (triggerActivationSignals ctx stepCtx hasOnClick asChild) = 0 := by
      rcases h with h | h <;>
        rcases stepCtx with _ | sc <;>
          cases asChild <;> cases hasOnClick <;>
            simp [triggerActivationSignals, handleClick, countValueChanges,
                  isValueChange, h]
    have hmrec : countValueChanges (triggerActivationRun m ctx stepCtx hasOnClick asChild) = 0 := ih
    simp only [triggerActivationRun, List.replicate_succ, List.flatten_cons,
               countValueChanges, List.countP_append] at *
    omega

/-- Witness for C3: five activations with `clickable = false` (and a
callback supplied) emit zero `onValueChange` invocations. -/
theorem activation_gating_witness :
    countValueChanges
        (triggerActivationRun 5
          { defaultStepperContext Nat with hasOnValueChange := true }
          (some { state := StepState.active, step := 3 }) true false) = 0 :=
  activation_gating 5
    { defaultStepperContext Nat with hasOnValueChange := true }
    (some { state := StepState.active, step := 3 }) true false (Or.inl rfl)

set_option linter.unnecessarySeqFocus false in
/-- Claim C4: the derived-state function yields exactly one of the three
states, and for two steps `a < b` against the same `currentValue` it never
happens that `a` derives `inactive` while `b` derives `completed`. -/
theorem deriveState_total_order (step v a b : Int) (hab : a < b) :
    ((deriveState step v = StepState.active ∧
        deriveState step v ≠ StepState.completed ∧
        deriveState step v ≠ StepState.inactive) ∨
     (deriveState step v = StepState.completed ∧
        deriveState step v ≠ StepState.active ∧
        deriveState step v ≠ StepState.inactive) ∨
     (deriveState step v = StepState.inactive ∧
        deriveState step v ≠ StepState.active ∧
        deriveState step v ≠ StepState.completed)) ∧
    ¬(deriveState a v = StepState.inactive ∧ deriveState b v = StepState.completed) := by
  constructor
  · cases h : deriveState step v
    · exact Or.inl ⟨rfl, by simp [h], by simp [h]⟩
    · exact Or.inr (Or.inl ⟨rfl, by simp [h], by simp [h]⟩)
    · exact Or.inr (Or.inr ⟨rfl, by simp [h], by simp [h]⟩)
  · rintro ⟨ha, hb⟩
    unfold deriveState at ha hb
    split_ifs at ha hb <;> simp_all <;> omega

/-- Witness for C4 at `a = 1 < b = 2`, `step = 3`, `currentValue = 5`. -/
theorem deriveState_total_order_witness :
    ((deriveState 3 5 = StepState.active ∧
        deriveState 3 5 ≠ StepState.completed ∧
        deriveState 3 5 ≠ StepState.inactive) ∨
     (deriveState 3 5 = StepState.completed ∧
        deriveState 3 5 ≠ StepState.active ∧
        deriveState 3 5 ≠ StepState.inactive) ∨
     (deriveState 3 5 = StepState.inactive ∧
        deriveState 3 5 ≠ StepState.active ∧
        deriveState 3 5 ≠ StepState.completed)) ∧
    ¬(deriveState 1 5 = StepState.inactive ∧ deriveState 2 5 = StepState.completed) :=
  deriveState_total_order 3 5 1 2 (by decide)

/-- Claim C5: a value-change request mutates nothing: the context after
the request is exactly the context before it, and the context value every
descendant sees is the value the caller passed in the props. -/
theorem activation_frame (p : StepperProps Nat) (ctx : StepperContextValue Nat)
    (stepCtx : Option StepperItemContextValue) (hasOnClick : Bool) :
    (triggerActivate ctx stepCtx hasOnClick).1 = ctx ∧
    (mkStepperContext p).value = p.value ∧
    (triggerActivate (mkStepperContext p) stepCtx hasOnClick).1.value = p.value :=
  ⟨rfl, rfl, rfl⟩

/-- Claim C6: with loading flag `l`, derived state `s`, override table `o`
and default content `c`: if `l` is set and `o.loading` exists the
indicator renders `o.loading`; otherwise if `s = completed` and
`o.completed` exists it renders `o.completed`; otherwise it renders `c`.
In particular the loading override takes precedence over the completed
override. -/
theorem indicator_content_resolution (ctx : StepperContextValue Nat)
    (sc : StepperItemContextValue) (loading : Bool) (children : Nat) :
    (∀ ov, loading = true → ctx.indicators.bind Indicators.loading = some ov →
        stepperIndicatorContent ctx (some sc) loading children = ov) ∧
    (∀ ov, (loading = false ∨ ctx.indicators.bind Indicators.loading = none) →
        sc.state = StepState.completed →
        ctx.indicators.bind Indicators.completed = some ov →
        stepperIndicatorContent ctx (some sc) loading children = ov) ∧
    ((loading = false ∨ ctx.indicators.bind Indicators.loading = none) →
        (sc.state ≠ StepState.completed ∨
          ctx.indicators.bind Indicators.completed = none) →
        stepperIndicatorContent ctx (some sc) loading children = children) := by
  obtain ⟨st, sp⟩ := sc
  rcases hind : ctx.indicators with _ | ind
  · cases loading <;> cases st <;>
      simp [stepperIndicatorContent, stepCtxState, hind]
  · obtain ⟨co, lo⟩ := ind
    rcases co with _ | cov <;> rcases lo with _ | lov <;>
      cases loading <;> cases st <;>
        simp [stepperIndicatorContent, stepCtxState, hind]

/-- Witness for C6: with both overrides present and a completed node,
loading wins; with only the completed override and no loading flag, the
completed override renders; with no overrides, the default renders. -/
theorem indicator_content_resolution_witness :
    stepperIndicatorContent
        { defaultStepperContext Nat with
            indicators := some { completed := some 7, loading := some 9 } }
        (some { state := StepState.completed, step := 1 }) true 0 = 9 ∧
    stepperIndicatorContent
        { defaultStepperContext Nat with
            indicators := some { completed := some 7, loading := none } }
        (some { state := StepState.completed, step := 1 }) false 0 = 7 ∧
    stepperIndicatorContent (defaultStepperContext Nat)
        (some { state := StepState.active, step := 1 }) false 0 = 0 :=
  ⟨(indicator_content_resolution
      { defaultStepperContext Nat with
          indicators := some { completed := some 7, loading := some 9 } }
      { state := StepState.completed, step := 1 } true 0).1 9 rfl rfl,
   (indicator_content_resolution
      { defaultStepperContext Nat with
          indicators := some { completed := some 7, loading := none } }
      { state := StepState.completed, step := 1 } false 0).2.1 7 (Or.inl rfl) rfl rfl,
   (indicator_content_resolution (defaultStepperContext Nat)
      { state := StepState.active, step := 1 } false 0).2.2
      (Or.inl rfl) (Or.inl (by decide))⟩

/-- Claim C7: a `StepperBadge` with declared status `t` inside a node with
derived state `s` renders iff `(s, t)` is one of `(completed, success)`,
`(active, warning)`, `(inactive, default)`; in particular statuses `error`
and `inactive` never render. -/
theorem badge_visibility (sc : StepperItemContextValue) (status : BadgeStatus)
    (children : Nat) :
    ((stepperBadgeRender (some sc) status children).isSome ↔
      ((sc.state = StepState.completed ∧ status = BadgeStatus.success) ∨
       (sc.state = StepState.active ∧ status = BadgeStatus.warning) ∨
       (sc.state = StepState.inactive ∧ status = BadgeStatus.default))) ∧
    stepperBadgeRender (some sc) BadgeStatus.error children = none ∧
    stepperBadgeRender (some sc) BadgeStatus.inactive children = none := by
  cases hs : sc.state <;> cases status <;>
    simp_all [stepperBadgeRender, stepperBadgeShouldShow, stepCtxState]

/-- Counting helper: over a duplicate-free list of panel step values, the
number of panels that render equals one when the current value occurs in
the list and zero otherwise. -/
theorem countP_contentRender_nodup (ctx : StepperContextValue Nat)
    (children : Nat) (l : List Int) (h : l.Nodup) :
    l.countP (fun s => (stepperContentRender ctx s children).isSome) =
      if ctx.value ∈ l then 1 else 0 := by
  induction l with
  | nil => simp
  | cons a t ih =>
    rcases List.nodup_cons.mp h with ⟨ha, ht⟩
    rw [List.countP_cons, ih ht]
    by_cases hv : ctx.value = a
    · subst hv
      simp [ha, stepperContentRender]
    · simp [hv, stepperContentRender]

/-- Claim C8: a content panel renders its children iff its declared step
value equals the context's current value; hence over any duplicate-free
family of panels sharing one controller, exactly one panel renders when
some panel's value matches the current value, and zero panels render when
none matches. -/
theorem content_panel_exclusive (ctx : StepperContextValue Nat)
    (children : Nat) (panels : List Int) (hnd : panels.Nodup) :
    (∀ s, (stepperContentRender ctx s children).isSome ↔ ctx.value = s) ∧
    (ctx.value ∈ panels →
        panels.countP (fun s => (stepperContentRender ctx s children).isSome) = 1) ∧
    (ctx.value ∉ panels →
        panels.countP (fun s => (stepperContentRender ctx s children).isSome) = 0) := by
  refine ⟨?_, ?_, ?_⟩
  · intro s
    by_cases hv : ctx.value = s <;> simp [stepperContentRender, hv]
  · intro hm
    simp [countP_contentRender_nodup ctx children panels hnd, hm]
  · intro hm
    simp [countP_contentRender_nodup ctx children panels hnd, hm]

/-- Witness for C8: with current value 1 and panels for steps 1, 2, 3,
exactly one panel renders. -/
theorem content_panel_exclusive_witness :
    ([1, 2, 3] : List Int).countP
        (fun s => (stepperContentRender (defaultStepperContext Nat) s 0).isSome) = 1 :=
  (content_panel_exclusive (defaultStepperContext Nat) 0 [1, 2, 3]
      (by decide)).2.1 (by decide)

/-- Claim C9: when the context's `showConnector` is false the separator
renders nothing at all, whatever the node's derived state; it renders a
connector element iff `showConnector` is true. -/
theorem separator_connector_gate (ctx : StepperContextValue Nat)
    (stepCtx : Option StepperItemContextValue) :
    (ctx.showConnector = false → stepperSeparatorRender ctx stepCtx = none) ∧
    ((stepperSeparatorRender ctx stepCtx).isSome ↔ ctx.showConnector = true) := by
  cases hsc : ctx.showConnector <;> simp [stepperSeparatorRender, hsc]

/-- Witness for C9: with `showConnector = false` and a completed node, the
separator renders nothing. -/
theorem separator_connector_gate_witness :
    stepperSeparatorRender { defaultStepperContext Nat with showConnector := false }
      (some { state := StepState.completed, step := 1 }) = none :=
  (separator_connector_gate
      { defaultStepperContext Nat with showConnector := false }
      (some { state := StepState.completed, step := 1 })).1 rfl

/-- Claim C10: a `StepperTrigger` rendered with `asChild = true` is a
plain container with no activation handler: any number of activations
emits no signal at all — in particular no `onValueChange` invocation —
even for contexts with `clickable = true` and a callback supplied. -/
theorem trigger_aschild_inert (ctx : StepperContextValue Nat)
    (stepCtx : Option StepperItemContextValue) (hasOnClick : Bool)
    (children : Nat) (n : Nat) :
    stepperTriggerRender ctx true children = TriggerRendered.plainContainer children ∧
    triggerActivationRun n ctx stepCtx hasOnClick true = [] := by
  refine ⟨rfl, ?_⟩
  have hsig : triggerActivationSignals ctx stepCtx hasOnClick true = [] := rfl
  induction n with
  | zero => rfl
  | succ m ih =>
    simp only [triggerActivationRun, List.replicate_succ, List.flatten_cons, hsig,
               List.nil_append] at ih ⊢
    exact ih

end Stepper
